import Mathlib

/-!
Shallow embedding of the fin_count frontend's listing / mutation / session
logic, translated from the React page components and the axios service layer:

* `src/frontend/src/services/api.js` — axios instance, the global
  `onUnauthorized` handler and the 401 response interceptor;
* `AdvancePaymentsPage` (the component bundled in `ReportsPage.jsx`) —
  `loadPayments`, `handleSave`, `handleDelete`;
* `IncomeDocumentsPage` (the component bundled in `CurrenciesPage.jsx`) —
  `loadDocuments`, `handleFilterChange`;
* `CurrenciesPage` — `onSubmit`, `loadCurrencies`;
* `src/frontend/src/contexts/AuthContext.jsx` — `logout`.

Items of a remote collection are modelled by their numeric ids (`Nat`);
JavaScript strings by `String`; an axios error object by `ApiError`
(the fields the code reads: `error.response?.status`,
`error.response?.data?.detail`, `error.message`).  `undefined`/absent
fields are `Option.none`; JavaScript's `x || y` on those fields is
translated field by field, treating `0`, `""`, `undefined` as falsy
exactly where the code applies `||`.
-/

/-- An axios rejection as observed by the `catch` blocks:
`status` is `error.response?.status`, `detail` is
`error.response?.data?.detail`, `message` is `error.message`. -/
structure ApiError where
  status : Option Nat
  detail : Option String
  message : String

/-- `err.response?.data?.detail || err.message` — the expression every page
uses to build its inline error text.  A missing or empty-string `detail`
is falsy in JavaScript, so `message` is used instead. -/
def errText (e : ApiError) : String :=
  match e.detail with
  | some s => if s = "" then e.message else s
  | none => e.message

/-- The two listing-response shapes the pages accept: a bare JSON array,
or a DRF envelope `{results, count}` whose `count` may be absent. -/
inductive ListResponse where
  | bare (items : List Nat)
  | envelope (results : List Nat) (count : Option Nat)

/-- `response.data.results || response.data`: an envelope contributes its
`results` array (a JavaScript array, even empty, is truthy); a bare array
has no `results` field, so the array itself is used. -/
def responseItems : ListResponse → List Nat
  | .bare items => items
  | .envelope results _ => results

/-- `loadDocuments`' total count:
`response.data.count || (Array.isArray(data) ? data.length : 0)`.
A bare array has no `count`, so its length is used; an envelope's `count`
is used unless it is absent or `0` (both falsy), in which case the length
of `data = results` is used. -/
def documentsTotalCount : ListResponse → Nat
  | .bare items => items.length
  | .envelope results c =>
      match c with
      | some n => if n = 0 then results.length else n
      | none => results.length

/-- `loadDocuments`' page count: `Math.ceil(totalCount / 50) || 1`.
For natural `t`, `Math.ceil(t / 50) = (t + 49) / 50` (Nat division);
the `|| 1` turns a falsy `0` into `1`. -/
def documentsPageCount (totalCount : Nat) : Nat :=
  if (totalCount + 49) / 50 = 0 then 1 else (totalCount + 49) / 50

/-- `loadPayments`' total: `response.data.count || response.data.length`.
On a bare array `count` is absent, so the array's length is used; on an
envelope a truthy `count` is used, but an absent or `0` `count` falls back
to `response.data.length`, which on a plain object is `undefined`
(modelled `none`; `Math.ceil(undefined / 50)` is `NaN`). -/
def paymentsTotalCount : ListResponse → Option Nat
  | .bare items => some items.length
  | .envelope _ c =>
      match c with
      | some n => if n = 0 then none else some n
      | none => none

/-- `loadPayments`' `Math.ceil(total / 50)` on a known total — note there is
no `|| 1` clamp in `loadPayments`, unlike `loadDocuments`. -/
def paymentsCeil (totalCount : Nat) : Nat :=
  (totalCount + 49) / 50

/-- `loadPayments`' page count: `Math.ceil((count || length) / 50)`;
`none` models the `NaN` produced when both sources are falsy/absent. -/
def paymentsPageCount (r : ListResponse) : Option Nat :=
  (paymentsTotalCount r).map paymentsCeil

/-- The `filters` state of `IncomeDocumentsPage`
(`useState({cash_register: '', currency: '', date_from: '', date_to: ''})`).
All four values are strings throughout the component's life: they are
initialised to `''` and only ever set from input-event string values. -/
structure Filters where
  cash_register : String
  currency : String
  date_from : String
  date_to : String

/-- The four filter fields a `handleFilterChange` call can target. -/
inductive FilterField where
  | cash_register
  | currency
  | date_from
  | date_to

/-- `setFilters((prev) => ({...prev, [field]: value}))`. -/
def setFilterField (f : Filters) : FilterField → String → Filters
  | .cash_register, v => { f with cash_register := v }
  | .currency, v => { f with currency := v }
  | .date_from, v => { f with date_from := v }
  | .date_to, v => { f with date_to := v }

/-- The initial filter state: every field `''`. -/
def emptyFilters : Filters := ⟨"", "", "", ""⟩

/-- The listing query of `IncomeDocumentsPage`: the `page` state plus the
`filters` state (the dependency list of the `loadDocuments` effect). -/
structure DocQuery where
  page : Nat
  filters : Filters

/-- `handleFilterChange(field, value)`: updates the one filter field and
`setPage(1)`. -/
def handleFilterChange (q : DocQuery) (field : FilterField) (v : String) : DocQuery :=
  { page := 1, filters := setFilterField q.filters field v }

/-- `Object.entries(filters)` in the declared key order. -/
def filterEntries (f : Filters) : List (String × String) :=
  [("cash_register", f.cash_register), ("currency", f.currency),
   ("date_from", f.date_from), ("date_to", f.date_to)]

/-- The `params` object `loadDocuments` sends: the page plus the spread of
the filter entries kept by `.filter(([_, v]) => v !== '')`. -/
structure RequestParams where
  page : Nat
  filterParams : List (String × String)

/-- `const params = {page, ...Object.fromEntries(Object.entries(filters)
.filter(([_, v]) => v !== ''))}`. -/
def requestParams (q : DocQuery) : RequestParams :=
  { page := q.page,
    filterParams := (filterEntries q.filters).filter (fun e => e.2 != "") }

/-- The listing-related component state touched by `loadDocuments`. -/
structure ListTrack where
  documents : List Nat
  count : Nat
  loading : Bool
  error : Option String

/-- Initial component state: `documents=[]`, `count=0`, `loading=true`. -/
def initListTrack : ListTrack := { documents := [], count := 0, loading := true, error := none }

/-- Asynchronous listing events: a `loadDocuments` invocation issuing a
request for query `q`, or the arrival of the response to the request that
was issued for query `q`. -/
inductive ListEvent where
  | issue (q : DocQuery)
  | resolve (q : DocQuery) (r : ListResponse)

/-- One event step of `loadDocuments`.  Issuing runs the prologue
(`setLoading(true); setError(null)`); a resolution runs the continuation
after `await`: `setDocuments(data); setCount(...); setLoading(false)`.
The continuation does not inspect which query `q` the response belongs
to — the code has no request tag or staleness check, so every arriving
response is applied to the visible state. -/
def listStep (s : ListTrack) : ListEvent → ListTrack
  | .issue _ => { s with loading := true, error := none }
  | .resolve _ r =>
      { documents := responseItems r,
        count := documentsPageCount (documentsTotalCount r),
        loading := false,
        error := s.error }

/-- Run a sequence of listing events from the initial state. -/
def runList (evs : List ListEvent) : ListTrack :=
  evs.foldl listStep initListTrack

/-- Query "page 1, no filters". -/
def query1 : DocQuery := ⟨1, emptyFilters⟩

/-- Query "page 2, no filters". -/
def query2 : DocQuery := ⟨2, emptyFilters⟩

/-- The `AdvancePaymentsPage` component state touched by `handleSave` and
`handleDelete`.  `listIssued` records, newest first, the `page` value of
each `loadPayments` request issued (the only query parameter
`loadPayments` sends is `{ page }`). -/
structure PaymentsState where
  payments : List Nat
  page : Nat
  count : Nat
  error : Option String
  openDialog : Bool
  listIssued : List Nat

/-- `'Ошибка сохранения: ' + (err.response?.data?.detail || err.message)`. -/
def saveMsg (e : ApiError) : String := "Ошибка сохранения: " ++ errText e

/-- `'Ошибка удаления: ' + (err.response?.data?.detail || err.message)`. -/
def deleteMsg (e : ApiError) : String := "Ошибка удаления: " ++ errText e

/-- `handleSave(data)` after its awaited API call settles with `outcome`:
on success `setOpenDialog(false); loadPayments()` (one listing request,
issued with the current `page`); on failure only `setError(...)` runs —
no cached state is touched and no listing request is issued. -/
def handleSave (s : PaymentsState) (outcome : Except ApiError Unit) : PaymentsState :=
  match outcome with
  | .ok _ => { s with openDialog := false, listIssued := s.page :: s.listIssued }
  | .error e => { s with error := some (saveMsg e) }

/-- `handleDelete(id)` (confirm accepted) after its awaited API call
settles: on success `loadPayments()`; on failure only `setError(...)`. -/
def handleDelete (s : PaymentsState) (outcome : Except ApiError Unit) : PaymentsState :=
  match outcome with
  | .ok _ => { s with listIssued := s.page :: s.listIssued }
  | .error e => { s with error := some (deleteMsg e) }

/-- The `CurrenciesPage` component state touched by `onSubmit`.
`listIssued` counts `loadCurrencies()` calls (they take no parameters). -/
structure CurrenciesState where
  currencies : List Nat
  openDialog : Bool
  listIssued : Nat

/-- `CurrenciesPage`'s `onSubmit(data)` after its awaited create/update
settles: on success `setOpenDialog(false); loadCurrencies()`; on failure
only `console.error` runs (no state change). -/
def onSubmit (s : CurrenciesState) (outcome : Except ApiError Unit) : CurrenciesState :=
  match outcome with
  | .ok _ => { s with openDialog := false, listIssued := s.listIssued + 1 }
  | .error _ => s

/-- Bookkeeping for overlapping mutation calls on one page.
`inFlight` counts mutation requests issued and not yet settled,
`issuedTotal` counts mutation requests ever issued, and
`rejectedConcurrent` counts calls rejected by a client-side concurrency
guard (`ConcurrentMutationError`). -/
structure MutationTrack where
  inFlight : Nat
  issuedTotal : Nat
  rejectedConcurrent : Nat

/-- No mutation pending, none issued, none rejected. -/
def initMutationTrack : MutationTrack := ⟨0, 0, 0⟩

/-- Entry of `handleSave` / `onSubmit` up to its `await`: the code performs
no pending-mutation check of any kind (no disabled button, no
`isSubmitting` guard, and no `ConcurrentMutationError` exists anywhere in
the repository), so every call unconditionally issues a new API request,
regardless of how many are already in flight. -/
def handleSaveCall (s : MutationTrack) : MutationTrack :=
  { inFlight := s.inFlight + 1,
    issuedTotal := s.issuedTotal + 1,
    rejectedConcurrent := s.rejectedConcurrent }

/-- A pending mutation request settles (the continuation after `await`). -/
def handleSaveSettle (s : MutationTrack) : MutationTrack :=
  { s with inFlight := s.inFlight - 1 }

/-- The axios response interceptor of `api.js` applied to a rejected
response: `if (error.response?.status === 401) { if (onUnauthorized)
onUnauthorized() } return Promise.reject(error)`.  Returns the number of
handler invocations and the error propagated onward — the rejection is
always re-thrown to the calling code, 401 or not. -/
def interceptError (handlerRegistered : Bool) (e : ApiError) : Nat × Option ApiError :=
  (if e.status = some 401 then (if handlerRegistered then 1 else 0) else 0, some e)

/-- A failed `handleSave` call end to end: the rejected response passes
through the interceptor, and the propagated rejection reaches
`handleSave`'s `catch`.  Yields the number of unauthorized-handler
invocations and the resulting component state. -/
def saveFailurePipeline (handlerRegistered : Bool) (e : ApiError) (s : PaymentsState) :
    Nat × PaymentsState :=
  let r := interceptError handlerRegistered e
  match r.2 with
  | some err => (r.1, handleSave s (Except.error err))
  | none => (r.1, s)

/-- A 401 rejection as axios builds it. -/
def e401 : ApiError := ⟨some 401, none, "Request failed with status code 401"⟩

/-- A concrete page state with one pending dialog. -/
def somePaymentsState : PaymentsState := ⟨[], 1, 0, none, true, []⟩

/-- The `AuthContext` state: `user` (a username when logged in) and the
initial-probe `loading` flag. -/
structure AuthState where
  user : Option String
  loading : Bool

/-- `logout()` of `AuthContext.jsx` after the `authAPI.logout()` request
settles: the `try` awaits the request, the `catch` only logs, and the
`finally` runs `setUser(null)` on both paths. -/
def logout (s : AuthState) (serverResult : Except ApiError Unit) : AuthState :=
  match serverResult with
  | .ok _ => { s with user := none }
  | .error _ => { s with user := none }

/-- `isAuthenticated: !!user`. -/
def isAuthenticated (s : AuthState) : Bool := s.user.isSome

/-- A 400 rejection carrying a server-provided `detail` message. -/
def e400 : ApiError := ⟨some 400, some "Недопустимая сумма", "Request failed with status code 400"⟩

/-! ## Theorems -/

/-- Helper: with at most 50 items counted, `loadDocuments` computes one page. -/
theorem documentsPageCount_of_le_50 (t : Nat) (h : t ≤ 50) : documentsPageCount t = 1 := by
  unfold documentsPageCount
  split <;> omega

/-- C1: the claim says a second create/update/delete call made while one is
pending is rejected immediately with `ConcurrentMutationError` and not
issued.  Evaluating the embedded `handleSave`/`onSubmit` entry path on two
overlapping calls shows the code issues both requests: two mutations are in
flight at once and nothing is ever rejected. -/
theorem overlapping_mutations_not_rejected :
    (handleSaveCall (handleSaveCall initMutationTrack)).inFlight = 2 ∧
    (handleSaveCall (handleSaveCall initMutationTrack)).issuedTotal = 2 ∧
    (handleSaveCall (handleSaveCall initMutationTrack)).rejectedConcurrent = 0 :=
  ⟨rfl, rfl, rfl⟩

/-- C2: requests A (`query1`) then B (`query2`) are issued; B's response
`[20]` arrives first, then A's stale response `[10]`.  `loadDocuments`'
continuation applies every arriving response unconditionally (no request
tag is checked), so the visible listing ends as A's stale `[10]`, not B's
`[20]` as the claim requires. -/
theorem stale_listing_response_overwrites_fresher :
    (runList [ListEvent.issue query1, ListEvent.issue query2,
      ListEvent.resolve query2 (ListResponse.bare [20]),
      ListEvent.resolve query1 (ListResponse.bare [10])]).documents = [10] ∧
    ([10] : List Nat) ≠ [20] := by
  exact ⟨rfl, by decide⟩

/-- C3 counterexample: on a 401 failure of `handleSave` the registered
unauthorized handler does fire once, but — contrary to the claim — the 401
is also surfaced to the form as an inline error, because the interceptor
re-rejects the error and `handleSave`'s `catch` runs `setError` on it. -/
theorem unauthorized_error_surfaced_inline :
    (saveFailurePipeline true e401 somePaymentsState).1 = 1 ∧
    (saveFailurePipeline true e401 somePaymentsState).2.error =
      some "Ошибка сохранения: Request failed with status code 401" ∧
    (saveFailurePipeline true e401 somePaymentsState).2.error ≠ none := by
  have h : (saveFailurePipeline true e401 somePaymentsState).2.error =
      some "Ошибка сохранения: Request failed with status code 401" := rfl
  exact ⟨rfl, h, h ▸ Option.some_ne_none _⟩

/-- C3 amended: every transport failure with status 401 invokes the
registered unauthorized handler exactly once, but the rejection still
propagates to the calling form, whose `catch` surfaces it as an inline
error message. -/
theorem unauthorized_handler_once_error_propagates (e : ApiError) (s : PaymentsState)
    (h : e.status = some 401) :
    (saveFailurePipeline true e s).1 = 1 ∧
    (saveFailurePipeline true e s).2.error = some (saveMsg e) := by
  simp [saveFailurePipeline, interceptError, h, handleSave]

/-- C3 witness: the amended theorem applied to the concrete 401 error. -/
theorem unauthorized_handler_once_error_propagates_w :
    (saveFailurePipeline true e401 somePaymentsState).1 = 1 ∧
    (saveFailurePipeline true e401 somePaymentsState).2.error = some (saveMsg e401) :=
  unauthorized_handler_once_error_propagates e401 somePaymentsState rfl

/-- C4: a failed save or delete leaves the cached page of listed items
(`payments`, `count`) completely unchanged, issues no listing request, and
the surfaced error carries the server-provided `detail` message when one
is present. -/
theorem failed_mutation_preserves_cache (s : PaymentsState) (e : ApiError) :
    (handleSave s (Except.error e)).payments = s.payments ∧
    (handleSave s (Except.error e)).count = s.count ∧
    (handleSave s (Except.error e)).listIssued = s.listIssued ∧
    (handleDelete s (Except.error e)).payments = s.payments ∧
    (handleDelete s (Except.error e)).listIssued = s.listIssued ∧
    (∀ d : String, e.detail = some d → d ≠ "" →
      (handleSave s (Except.error e)).error = some ("Ошибка сохранения: " ++ d)) := by
  refine ⟨rfl, rfl, rfl, rfl, rfl, ?_⟩
  intro d hd hne
  simp [handleSave, saveMsg, errText, hd, hne]

/-- C4 witness: a concrete 400 failure with a server `detail` message. -/
theorem failed_mutation_preserves_cache_w :
    (handleSave somePaymentsState (Except.error e400)).payments = somePaymentsState.payments ∧
    (handleSave somePaymentsState (Except.error e400)).count = somePaymentsState.count ∧
    (handleSave somePaymentsState (Except.error e400)).listIssued = somePaymentsState.listIssued ∧
    (handleDelete somePaymentsState (Except.error e400)).payments = somePaymentsState.payments ∧
    (handleDelete somePaymentsState (Except.error e400)).listIssued = somePaymentsState.listIssued ∧
    (handleSave somePaymentsState (Except.error e400)).error =
      some ("Ошибка сохранения: " ++ "Недопустимая сумма") := by
  have h := failed_mutation_preserves_cache somePaymentsState e400
  exact ⟨h.1, h.2.1, h.2.2.1, h.2.2.2.1, h.2.2.2.2.1,
    h.2.2.2.2.2 "Недопустимая сумма" rfl (by decide)⟩

/-- C5: a successful save or delete issues exactly one listing refresh,
carrying the current `page` as its query; `CurrenciesPage`'s `onSubmit`
likewise issues exactly one `loadCurrencies` call on success. -/
theorem successful_mutation_single_refresh (s : PaymentsState) (c : CurrenciesState) :
    (handleSave s (Except.ok ())).listIssued = s.page :: s.listIssued ∧
    (handleSave s (Except.ok ())).openDialog = false ∧
    (handleDelete s (Except.ok ())).listIssued = s.page :: s.listIssued ∧
    (onSubmit c (Except.ok ())).listIssued = c.listIssued + 1 :=
  ⟨rfl, rfl, rfl, rfl⟩

/-- C6: every `handleFilterChange` call, whatever the current page and
whichever filter it changes, resets the page to 1, and the listing request
built from the resulting query is issued with `page = 1`. -/
theorem filter_change_resets_page (q : DocQuery) (f : FilterField) (v : String) :
    (handleFilterChange q f v).page = 1 ∧
    (requestParams (handleFilterChange q f v)).page = 1 ∧
    (handleFilterChange q f v).filters = setFilterField q.filters f v :=
  ⟨rfl, rfl, rfl⟩

/-- C7 counterexample: a bare array of 60 items yields `pageCount = 2`, not
`1` as the claim states for every bare sequence; and an envelope with
`count = 0` but one result yields `totalCount = 1`, not `count = 0`,
because `response.data.count || ...` treats `0` as falsy. -/
theorem bare_sixty_items_two_pages :
    documentsTotalCount (ListResponse.bare (List.range 60)) = 60 ∧
    documentsPageCount (documentsTotalCount (ListResponse.bare (List.range 60))) = 2 ∧
    (2 : Nat) ≠ 1 ∧
    documentsTotalCount (ListResponse.envelope [7] (some 0)) = 1 ∧
    (1 : Nat) ≠ 0 := by
  decide

/-- C7 amended: a bare sequence of N items yields `totalCount = N`, with
`pageCount = 1` whenever N ≤ 50; an envelope yields `items = results`,
with `totalCount = count` whenever `count` is present and nonzero, and
`totalCount = results.length` when `count` is absent. -/
theorem response_normalization_amended (l res : List Nat) (n : Nat) :
    responseItems (ListResponse.bare l) = l ∧
    documentsTotalCount (ListResponse.bare l) = l.length ∧
    (l.length ≤ 50 → documentsPageCount (documentsTotalCount (ListResponse.bare l)) = 1) ∧
    responseItems (ListResponse.envelope res (some n)) = res ∧
    (n ≠ 0 → documentsTotalCount (ListResponse.envelope res (some n)) = n) ∧
    documentsTotalCount (ListResponse.envelope res none) = res.length := by
  refine ⟨rfl, rfl, ?_, rfl, ?_, rfl⟩
  · intro h
    exact documentsPageCount_of_le_50 l.length h
  · intro hn
    simp [documentsTotalCount, hn]

/-- C7 witness: the amended theorem at a bare array of 12 items and an
envelope of 2 results with `count = 137`. -/
theorem response_normalization_amended_w :
    responseItems (ListResponse.bare (List.range 12)) = List.range 12 ∧
    documentsTotalCount (ListResponse.bare (List.range 12)) = 12 ∧
    documentsPageCount (documentsTotalCount (ListResponse.bare (List.range 12))) = 1 ∧
    responseItems (ListResponse.envelope [3, 4] (some 137)) = [3, 4] ∧
    documentsTotalCount (ListResponse.envelope [3, 4] (some 137)) = 137 ∧
    documentsTotalCount (ListResponse.envelope [3, 4] none) = 2 := by
  have h := response_normalization_amended (List.range 12) [3, 4] 137
  exact ⟨h.1, h.2.1.trans (by decide), h.2.2.1 (by decide), h.2.2.2.1,
    h.2.2.2.2.1 (by decide), h.2.2.2.2.2.trans (by decide)⟩

/-- C8 counterexample: `loadPayments` has no `|| 1` clamp, so an empty bare
listing yields `pageCount = 0`, not the claimed minimum of 1. -/
theorem payments_pagecount_unclamped_zero :
    paymentsPageCount (ListResponse.bare []) = some 0 ∧
    paymentsPageCount (ListResponse.bare []) ≠ some 1 := by
  exact ⟨rfl, by decide⟩

/-- C8 amended: `loadDocuments` computes
`pageCount = max 1 ⌈totalCount / 50⌉` (the claimed clamped ceiling), but
`loadPayments` computes the unclamped `⌈totalCount / 50⌉`, which is 0 when
`totalCount = 0`.  Both give 3 for `totalCount = 137`. -/
theorem pagecount_ceil_clamp_location :
    (∀ t : Nat, documentsPageCount t = max 1 (t ⌈/⌉ 50)) ∧
    (∀ t : Nat, paymentsCeil t = t ⌈/⌉ 50) ∧
    documentsPageCount 137 = 3 ∧ documentsPageCount 0 = 1 ∧
    paymentsCeil 137 = 3 ∧ paymentsCeil 0 = 0 ∧
    paymentsPageCount (ListResponse.envelope (List.range 50) (some 137)) = some 3 := by
  refine ⟨?_, ?_, by decide, by decide, by decide, rfl, by decide⟩
  · intro t
    rw [Nat.ceilDiv_eq_add_pred_div]
    unfold documentsPageCount
    split <;> omega
  · intro t
    rw [Nat.ceilDiv_eq_add_pred_div]
    unfold paymentsCeil
    omega

/-- C9: the listing request carries the page, and a filter entry is sent
if and only if its value is a non-empty string — empty filters are
omitted entirely (filter values are strings for the whole component life,
so the `undefined` case of the claim cannot arise). -/
theorem params_page_and_nonempty_filters (q : DocQuery) :
    (requestParams q).page = q.page ∧
    ∀ n v : String, ((n, v) ∈ (requestParams q).filterParams ↔
      ((n, v) ∈ filterEntries q.filters ∧ v ≠ "")) := by
  refine ⟨rfl, ?_⟩
  intro n v
  simp [requestParams, List.mem_filter]

/-- C9 witness: the characterization applied to the page-2 empty-filter
query and the empty `currency` filter value. -/
theorem params_page_and_nonempty_filters_w :
    (requestParams query2).page = 2 ∧
    (("currency", "") ∈ (requestParams query2).filterParams ↔
      (("currency", "") ∈ filterEntries query2.filters ∧ ("" : String) ≠ "")) := by
  have h := params_page_and_nonempty_filters query2
  exact ⟨h.1.trans rfl, h.2 "currency" ""⟩

/-- C10: `logout` ends with `setUser(null)` in its `finally` block, so the
local user state is cleared — and `isAuthenticated` becomes false —
whether the server request succeeds or fails. -/
theorem logout_clears_user_always (s : AuthState) (r : Except ApiError Unit) :
    (logout s r).user = none ∧ isAuthenticated (logout s r) = false := by
  cases r <;> exact ⟨rfl, rfl⟩
